import Mathlib

/-!
Shallow embedding of `src/index.js` (a minimal StatsD UDP client) and proofs
about its observable behaviour.

The source has two classes:
* `StatsD` — fields `_host`, `_port`, `_client` (nullable socket), `sending`
  (in-flight counter); operations `count`, `gauge`, `timer`, `space`, `close`,
  and internals `_stat` / `_send` plus a lazy `client` getter.
* `StatsDProxy` — fields `parent`, `prefix`; operations `space`, `count`,
  `gauge`, `timer`.

The socket handle is modelled by its only observable aspect here: presence
(`_client : Bool`, `true` iff the JS field is non-null).  The UDP payload of a
send is modelled as an emitted `Datagram` value.  JS numbers reach the packet
string only through template-literal interpolation, so metric values are
carried as their string rendering.
-/

set_option autoImplicit false

/- Wire-format type tags, from the `TYPES` constant (src/index.js lines 3-7). -/
namespace TYPES

def COUNTER : String := "c"

def GAUGE : String := "g"

def TIMER : String := "ms"

end TYPES

/-- One UDP datagram as handed to `socket.send(body, port, host, cb)`. -/
structure Datagram where
  body : String
  port : Nat
  host : String
deriving DecidableEq

/-- State of a `StatsD` client: `_host`/`_port` from the constructor,
`_client = true` iff the JS `_client` field is non-null, and the `sending`
counter.  `sending` is an `Int` because nothing in the source clamps it. -/
structure StatsD where
  _host : String
  _port : Nat
  _client : Bool
  sending : Int
deriving DecidableEq

/-- The `StatsD` constructor: `this._client = null; this.sending = 0`. -/
def mkStatsD (host : String) (port : Nat) : StatsD :=
  { _host := host, _port := port, _client := false, sending := 0 }

/-- The `client` getter (src/index.js lines 45-51): when `_client` is null it
sets `sending = 0` and creates the socket; it returns the socket, so in the
model it returns the state with the socket present. -/
def clientGet (s : StatsD) : StatsD :=
  if s._client then s else { s with sending := 0, _client := true }

/-- The statement `this.sending++` at the top of `_send` (line 119). -/
def incrSending (s : StatsD) : StatsD :=
  { s with sending := s.sending + 1 }

/-- The state effect of one `_send` call up to the point the datagram is
handed to the socket: `this.sending++` runs first (line 119), and only then is
`this.client` evaluated inside the promise executor (line 121), lazily
creating the socket and resetting `sending` when `_client` was null. -/
def issueCore (s : StatsD) : StatsD :=
  clientGet (incrSending s)

/-- The packet string `` `${key}:${value}|${type}` `` of `_send` (line 121). -/
def packet (key value ty : String) : String :=
  key ++ ":" ++ value ++ "|" ++ ty

/-- `StatsD._send` (lines 118-131), as its synchronous part observed from
outside: the state effect `issueCore` plus the single datagram passed to
`this.client.send(..., this._port, this._host, cb)`. The callback is modelled
separately by `sendCallback`. -/
def _send (s : StatsD) (key value ty : String) : StatsD × List Datagram :=
  (issueCore s, [{ body := packet key value ty, port := s._port, host := s._host }])

/-- `StatsD.count` delegates to `_stat`/`_send` with `TYPES.COUNTER`. -/
def StatsD.count (s : StatsD) (key value : String) : StatsD × List Datagram :=
  _send s key value TYPES.COUNTER

/-- `StatsD.gauge` delegates to `_stat`/`_send` with `TYPES.GAUGE`. -/
def StatsD.gauge (s : StatsD) (key value : String) : StatsD × List Datagram :=
  _send s key value TYPES.GAUGE

/-- `StatsD.timer` delegates to `_stat`/`_send` with `TYPES.TIMER`. -/
def StatsD.timer (s : StatsD) (key value : String) : StatsD × List Datagram :=
  _send s key value TYPES.TIMER

/-- Result delivered to the caller of one operation when its send callback
fires: `resolve()` or `reject(error)`. -/
inductive SendResult where
  | resolved
  | rejected (e : String)
deriving DecidableEq

/-- The completion callback of `_send` (lines 121-129): `this.sending--`;
on error `console.warn(error)` then `reject(error)`, else `resolve()`.
Returns the new state, the warnings logged, and the per-operation result. -/
def sendCallback (s : StatsD) (error : Option String) : StatsD × List String × SendResult :=
  let s1 := { s with sending := s.sending - 1 }
  match error with
  | some e => (s1, [e], .rejected e)
  | none => (s1, [], .resolved)

/-- Externally visible effect of one `close` call. -/
inductive CloseAction where
  | noop
  | destroyed
  | scheduled (delayMs : Nat)
deriving DecidableEq

/-- `StatsD.close` (lines 103-112): when `_client` is non-null, either
schedule `close(true)` in 10000 ms (if `sending > 0 && !force`) or destroy the
socket synchronously (`this._client.close(); this._client = null`); when
`_client` is null, do nothing. -/
def StatsD.close (s : StatsD) (force : Bool) : StatsD × CloseAction :=
  if s._client then
    if s.sending > 0 ∧ ¬force then (s, .scheduled 10000)
    else ({ s with _client := false }, .destroyed)
  else (s, .noop)

/-- Events observable on one client.  `issue` is the synchronous part of one
`_send` call (any of count/gauge/timer); `complete err` is one send callback
firing, with the error the transport passed it; `closeEv f` is one `close(f)`
call (a grace-timer expiry is simply a later `closeEv true`). -/
inductive Ev where
  | issue
  | complete (err : Option String)
  | closeEv (force : Bool)

/-- State transition for one event, assembled from the embedded source
operations: `issueCore` for sends, `sendCallback` for completions,
`StatsD.close` for closes (the datagram, warnings and per-operation results
are projected away here). -/
def step (s : StatsD) : Ev → StatsD
  | .issue => issueCore s
  | .complete err => (sendCallback s err).1
  | .closeEv f => (s.close f).1

/-- Run a trace of events from a state. -/
def run (s : StatsD) : List Ev → StatsD
  | [] => s
  | e :: t => run (step s e) t

/-- Number of `issue` events in a trace. -/
def issuesOf : List Ev → Nat
  | [] => 0
  | .issue :: t => issuesOf t + 1
  | _ :: t => issuesOf t

/-- Number of `complete` events in a trace. -/
def completesOf : List Ev → Nat
  | [] => 0
  | .complete _ :: t => completesOf t + 1
  | _ :: t => completesOf t

/-- Whether a trace contains a `closeEv` event. -/
def hasCloseEv : List Ev → Bool
  | [] => false
  | .closeEv _ :: _ => true
  | _ :: t => hasCloseEv t

/-- A trace is callback-valid when every `complete` event answers an `issue`
already in the past: tracking the number of outstanding callbacks (starting
from `p`), no `complete` fires with none outstanding. -/
def validFrom (p : Nat) : List Ev → Bool
  | [] => true
  | .issue :: t => validFrom (p + 1) t
  | .complete _ :: t => match p with
    | 0 => false
    | q + 1 => validFrom q t
  | .closeEv _ :: t => validFrom p t

/-- The send-step order the spec's algorithm describes, embedded for
comparison with the source's `issueCore` (claim C3): obtain or lazily create
the socket first (creation resetting `sending` to 0), and only after that
increment `sending`. -/
def issueSpecOrder (s : StatsD) : StatsD :=
  incrSending (clientGet s)

/-- JS `String.prototype.endsWith` with a single string argument, modelled at
the level of characters (JS compares code units, and every string involved
here is ASCII, where the two notions agree). -/
def strEndsWith (s suf : String) : Bool :=
  suf.data.isSuffixOf s.data

/-- The `StatsDProxy` class (lines 137-204).  The field `pre` embeds the
source field `prefix` (a Lean keyword); `parent = none` encodes a parent that
is the `StatsD` client itself, `parent = some p` a parent proxy. -/
inductive Proxy where
  | mk (parent : Option Proxy) (pre : String)

/-- The `parent` field of a proxy. -/
def Proxy.parent : Proxy → Option Proxy
  | .mk p _ => p

/-- The `prefix` field of a proxy. -/
def Proxy.pre : Proxy → String
  | .mk _ q => q

/-- The `StatsDProxy` constructor (lines 144-151): stores the parent, and the
prefix after appending `"."` when it does not already end with it. -/
def mkProxy (parent : Option Proxy) (q : String) : Proxy :=
  .mk parent (if strEndsWith q "." then q else q ++ ".")

/-- `StatsD.space` (lines 37-39): a new proxy whose parent is the client. -/
def clientSpace (q : String) : Proxy :=
  mkProxy none q

/-- `StatsDProxy.space` (lines 159-161):
`new StatsDProxy(this.parent, this.prefix + prefix)`. -/
def Proxy.space (p : Proxy) (q : String) : Proxy :=
  mkProxy p.parent (p.pre ++ q)

/-- `StatsDProxy.count` (lines 172-175): delegates to
`this.parent.count(this.prefix + key, value)`; when the parent is itself a
proxy the delegation recurses, ending at the client's `count`. -/
def Proxy.countD (p : Proxy) (s : StatsD) (key value : String) : StatsD × List Datagram :=
  match p with
  | .mk none q => s.count (q ++ key) value
  | .mk (some pp) q => pp.countD s (q ++ key) value

/-- Proxies constructible through the public API: from `StatsD.space`, or
from `space` on an already constructed proxy. -/
inductive ReachableProxy : Proxy → Prop where
  | ofClient (q : String) : ReachableProxy (clientSpace q)
  | ofProxy (p : Proxy) (q : String) : ReachableProxy p → ReachableProxy (p.space q)

/-- Names of the methods declared on `class StatsD` (lines 14-132),
`constructor` aside. -/
def clientMethods : List String :=
  ["space", "client", "count", "gauge", "timer", "close", "_stat", "_send"]

/-- Names of the methods declared on `class StatsDProxy` (lines 137-204),
`constructor` aside; the class extends nothing, so these (plus
`Object.prototype`) are all that is callable on a proxy. -/
def proxyMethods : List String :=
  ["space", "count", "gauge", "timer"]

/-- C1: each of count/gauge/timer issues exactly one datagram, with body
`key:value|c`, `key:value|g`, `key:value|ms` respectively, addressed to the
client's configured port and host. -/
theorem one_datagram_per_op (s : StatsD) (k v : String) :
    (s.count k v).2 = [{ body := k ++ ":" ++ v ++ "|" ++ "c", port := s._port, host := s._host }] ∧
    (s.gauge k v).2 = [{ body := k ++ ":" ++ v ++ "|" ++ "g", port := s._port, host := s._host }] ∧
    (s.timer k v).2 = [{ body := k ++ ":" ++ v ++ "|" ++ "ms", port := s._port, host := s._host }] := by
  refine ⟨rfl, rfl, rfl⟩

/-- Once the socket exists and no close occurs, the trace dynamics of
`sending` are plain counting: each issue adds one, each completion subtracts
one (the lazy-create reset never fires because `_client` stays `true`). -/
theorem run_sending_of_client (t : List Ev) :
    ∀ s : StatsD, s._client = true → hasCloseEv t = false →
      (run s t).sending = s.sending + (issuesOf t : Int) - (completesOf t : Int) := by
  induction t with
  | nil =>
    intro s _ _
    simp [run, issuesOf, completesOf]
  | cons e t ih =>
    intro s hc hnc
    cases e with
    | issue =>
      have hstep : step s .issue = { s with sending := s.sending + 1 } := by
        simp [step, issueCore, incrSending, clientGet, hc]
      have hrec := ih { s with sending := s.sending + 1 } hc (by simpa [hasCloseEv] using hnc)
      simp only [run, hstep, hrec, issuesOf, completesOf]
      push_cast
      ring
    | complete err =>
      have hstep : step s (.complete err) = { s with sending := s.sending - 1 } := by
        cases err <;> simp [step, sendCallback]
      have hrec := ih { s with sending := s.sending - 1 } hc (by simpa [hasCloseEv] using hnc)
      simp only [run, hstep, hrec, issuesOf, completesOf]
      push_cast
      ring
    | closeEv f =>
      simp [hasCloseEv] at hnc

/-- C2: evaluation at the failing input.  On a freshly constructed client the
trace "one send is issued, then its callback fires" is callback-valid, yet it
leaves `sending = -1`: the `sending++` of `_send` runs before the `client`
getter, whose lazy socket creation resets `sending` to `0` and so erases the
increment, and the completion then decrements from `0`.  Moreover after the
issue alone `sending` is `0`, so `close(false)` destroys the socket
immediately even though one send is still in flight, contradicting the
source's own doc comment that `close` waits 10s for active packets. -/
theorem sending_goes_negative :
    validFrom 0 [Ev.issue, Ev.complete none] = true ∧
    (run (mkStatsD "127.0.0.1" 8125) [Ev.issue, Ev.complete none]).sending = -1 ∧
    (run (mkStatsD "127.0.0.1" 8125) [Ev.issue]).sending = 0 ∧
    ((run (mkStatsD "127.0.0.1" 8125) [Ev.issue]).close false).2 = CloseAction.destroyed := by
  decide

/-- C3: evaluation at the failing input.  On a freshly constructed client,
the source's send step (`sending++` first, socket obtained or created after)
leaves `sending = 0`, whereas the order the claim states (socket first, with
its reset-on-create, increment after) would leave `sending = 1`. -/
theorem send_step_order_differs_from_spec :
    (issueCore (mkStatsD "127.0.0.1" 8125)).sending = 0 ∧
    (issueSpecOrder (mkStatsD "127.0.0.1" 8125)).sending = 1 := by
  decide

/-- C4: for every callback-valid trace of N sends and their N completions
(interleaved in any order, no close events) on a freshly constructed client,
the final value of `sending` is `-1`, not `0`: the first issue lazily creates
the socket, so its increment is erased by the reset, and the N completions
then outnumber the N-1 surviving increments. -/
theorem sending_after_all_complete (host : String) (port N : Nat) (t : List Ev)
    (hv : validFrom 0 t = true) (hnc : hasCloseEv t = false)
    (hi : issuesOf t = N) (hcm : completesOf t = N) (hN : 1 ≤ N) :
    (run (mkStatsD host port) t).sending = -1 := by
  cases t with
  | nil =>
    simp [issuesOf] at hi
    omega
  | cons e t' =>
    cases e with
    | issue =>
      have hstep : step (mkStatsD host port) .issue =
          { mkStatsD host port with sending := 0, _client := true } := by
        simp [step, issueCore, incrSending, clientGet, mkStatsD]
      have hnc' : hasCloseEv t' = false := by simpa [hasCloseEv] using hnc
      have hrec := run_sending_of_client t'
        { mkStatsD host port with sending := 0, _client := true } rfl hnc'
      have hi' : issuesOf t' + 1 = N := by simpa [issuesOf] using hi
      have hcm' : completesOf t' = N := by simpa [completesOf] using hcm
      simp only [run, hstep, hrec]
      omega
    | complete err =>
      simp [validFrom] at hv
    | closeEv f =>
      simp [hasCloseEv] at hnc

/-- Concrete instance for `sending_after_all_complete`: two sends issued on a
fresh client, both completed (one with an error), final `sending = -1`. -/
theorem sending_after_all_complete_witness :
    (run (mkStatsD "localhost" 8125)
      [Ev.issue, Ev.issue, Ev.complete none, Ev.complete (some "boom")]).sending = -1 :=
  sending_after_all_complete "localhost" 8125 2
    [Ev.issue, Ev.issue, Ev.complete none, Ev.complete (some "boom")]
    (by decide) (by decide) (by decide) (by decide) (by decide)

/-- C5: `close` is a no-op when no socket exists; destroys the socket
synchronously when a socket exists and `sending = 0` or `force` holds;
schedules a `close(true)` 10000 ms later, destroying nothing now, when a
socket exists, `sending > 0` and `force` is false; and `close(true)` with a
socket present always destroys it, whatever `sending` is. -/
theorem close_behaviour (s : StatsD) (force : Bool) :
    (s._client = false → s.close force = (s, CloseAction.noop)) ∧
    (s._client = true → s.sending = 0 ∨ force = true →
      s.close force = ({ s with _client := false }, CloseAction.destroyed)) ∧
    (s._client = true → s.sending > 0 → force = false →
      s.close force = (s, CloseAction.scheduled 10000)) ∧
    (s._client = true →
      (s.close true).1._client = false ∧ (s.close true).2 = CloseAction.destroyed) := by
  refine ⟨?_, ?_, ?_, ?_⟩
  · intro h
    simp [StatsD.close, h]
  · intro h hor
    rcases hor with h0 | hf
    · simp [StatsD.close, h, h0]
    · simp [StatsD.close, h, hf]
  · intro h hpos hf
    simp [StatsD.close, h, hf, hpos]
  · intro h
    simp [StatsD.close, h]

/-- Concrete instance for `close_behaviour`: a client with a live socket and
nothing in flight destroys the socket on `close(false)`. -/
theorem close_behaviour_witness :
    StatsD.close { _host := "h", _port := 1, _client := true, sending := 0 } false =
      ({ _host := "h", _port := 1, _client := false, sending := 0 }, CloseAction.destroyed) :=
  (close_behaviour { _host := "h", _port := 1, _client := true, sending := 0 } false).2.1
    rfl (Or.inl rfl)

/-- C6: `space(p).count(k, v)` issues one datagram whose key is `p ++ "." ++ k`
when `p` does not end with `"."` and `p ++ k` when it does: the separator is
appended by the proxy constructor exactly once and never doubled. -/
theorem space_count_key (s : StatsD) (p k v : String) :
    ((clientSpace p).countD s k v).2 =
      [{ body := (if strEndsWith p "." then p ++ k else p ++ "." ++ k) ++ ":" ++ v ++ "|" ++ "c",
         port := s._port, host := s._host }] := by
  by_cases h : strEndsWith p "."
  · simp [clientSpace, mkProxy, h, Proxy.countD, StatsD.count, _send, packet, TYPES.COUNTER]
  · simp [clientSpace, mkProxy, h, Proxy.countD, StatsD.count, _send, packet, TYPES.COUNTER,
      String.append_assoc]

/-- C7: nested namespacing is associative on the concrete instance of the
claim: `space("a").space("b").count("c", 1)` issues the same datagram as
`space("a.b").count("c", 1)`, with key `"a.b.c"`. -/
theorem nested_space_associative (s : StatsD) :
    (((clientSpace "a").space "b").countD s "c" "1").2 =
      ((clientSpace "a.b").countD s "c" "1").2 ∧
    (((clientSpace "a").space "b").countD s "c" "1").2 =
      [{ body := "a.b.c" ++ ":" ++ "1" ++ "|" ++ "c", port := s._port, host := s._host }] := by
  constructor
  · rfl
  · rfl

/-- C8: a send error is confined to its own operation: completion decrements
`sending` whether or not an error occurred, an error logs exactly one warning
and rejects only that operation's promise while success logs nothing and
resolves it, the client state after an error-completion is identical to the
state after a success-completion, and in particular every later operation
behaves exactly as it would have after a success. -/
theorem send_error_isolated (s : StatsD) (e : String) :
    (sendCallback s (some e)).1.sending = s.sending - 1 ∧
    (sendCallback s none).1.sending = s.sending - 1 ∧
    (sendCallback s (some e)).2.1 = [e] ∧
    (sendCallback s (some e)).2.2 = SendResult.rejected e ∧
    (sendCallback s none).2.1 = [] ∧
    (sendCallback s none).2.2 = SendResult.resolved ∧
    (sendCallback s (some e)).1 = (sendCallback s none).1 ∧
    (∀ k v, ((sendCallback s (some e)).1).count k v = ((sendCallback s none).1).count k v) := by
  exact ⟨rfl, rfl, rfl, rfl, rfl, rfl, rfl, fun k v => rfl⟩

/-- C9 counterexample: `close` is declared on `class StatsD` but not on
`class StatsDProxy` (which extends nothing), so `close` cannot be called on a
proxy, contrary to the claim. -/
theorem proxy_lacks_close :
    "close" ∈ clientMethods ∧ "close" ∉ proxyMethods := by
  decide

/-- C9 amended: `count`, `gauge`, `timer` and `space` are available on the
client and on every proxy; `close` is available on the client only. -/
theorem public_surface :
    ("count" ∈ clientMethods ∧ "count" ∈ proxyMethods) ∧
    ("gauge" ∈ clientMethods ∧ "gauge" ∈ proxyMethods) ∧
    ("timer" ∈ clientMethods ∧ "timer" ∈ proxyMethods) ∧
    ("space" ∈ clientMethods ∧ "space" ∈ proxyMethods) ∧
    ("close" ∈ clientMethods ∧ "close" ∉ proxyMethods) := by
  decide

/-- C10: every proxy reachable through the public API has the client itself
as parent (`space` on a proxy passes `this.parent` on, never the proxy), so a
metric operation delegates to the client in exactly one step, prepending the
proxy's combined prefix to the key exactly once. -/
theorem proxy_parent_is_client (p : Proxy) (hp : ReachableProxy p) :
    p.parent = none ∧ ∀ s k v, p.countD s k v = s.count (p.pre ++ k) v := by
  induction hp with
  | ofClient q =>
    exact ⟨rfl, fun s k v => rfl⟩
  | ofProxy p q hp ih =>
    obtain ⟨h1, _⟩ := ih
    have hsp : p.space q = mkProxy none (p.pre ++ q) := by
      rw [Proxy.space, h1]
    refine ⟨?_, ?_⟩
    · rw [hsp]
      rfl
    · intro s k v
      rw [hsp]
      rfl

/-- Concrete instance for `proxy_parent_is_client`: the doubly nested proxy
`space("a").space("b")` still has the client as its parent. -/
theorem proxy_parent_is_client_witness :
    ((clientSpace "a").space "b").parent = none :=
  (proxy_parent_is_client ((clientSpace "a").space "b")
    (ReachableProxy.ofProxy (clientSpace "a") "b" (ReachableProxy.ofClient "a"))).1
